import Mathlib

/-!
Shallow embedding of the hedge-grid trading strategy engine
(`src/strategies/hedge_grid_strategy.py` of the repository) and proofs of the
specification's claims about it.

Python `Decimal` price/quantity arithmetic is modelled by `ℚ` (exact decimal
arithmetic), position and trade dictionaries by structures, and the mutable
`HedgeGridStrategy` instance state by the `Strategy` structure.  Exchange
network calls are external inputs: their success and returned fill prices are
passed in as explicit parameters, and a call that raises is modelled by the
parameter being `false`, in which case exactly the source lines executed before
the call's `except` handler take effect.
-/

namespace HedgeGrid

/-- Threshold mode: the source's `'percent'` vs `'atr'` strings. -/
inductive ThresholdType where
  | percent
  | atr
deriving DecidableEq, Repr

/-- Close reason passed to the close functions (the source's `"止盈"` (take
profit), `"止损"` (stop loss) and `"策略停止"` (strategy stop) strings). -/
inductive CloseReason where
  | takeProfit
  | stopLoss
  | strategyStop
deriving DecidableEq, Repr

/-- Position side. -/
inductive Side where
  | long
  | short
deriving DecidableEq, Repr

/-- A position dictionary as built by `_open_long_position` /
`_open_short_position`: economically relevant fields (`order_id`,
`entry_time` are omitted; `entry_atr` is `Option` because the calculators
read it with `position.get('entry_atr', self.current_atr)`). -/
structure Position where
  entry_price : ℚ
  amount : ℚ
  is_open : Bool
  entry_atr : Option ℚ
deriving DecidableEq, Repr

/-- A trade record as passed to `trade_recorder.record_trade` (id and
timestamp fields omitted; `profit` is the net profit recorded there). -/
structure TradeRecord where
  side : Side
  entry_price : ℚ
  exit_price : ℚ
  amount : ℚ
  profit : ℚ
  reason : CloseReason
deriving DecidableEq, Repr

/-- The mutable state of a `HedgeGridStrategy` instance (`__init__` fields).
`trades` accumulates the records handed to the trade recorder. -/
structure Strategy where
  investment : ℚ
  position_ratio : ℚ
  leverage : ℚ
  up_threshold_type : ThresholdType
  up_threshold : ℚ
  up_atr_multiplier : ℚ
  down_threshold_type : ThresholdType
  down_threshold : ℚ
  down_atr_multiplier : ℚ
  stop_loss_type : ThresholdType
  stop_loss_ratio : ℚ
  stop_loss_atr_multiplier : ℚ
  atr_period : ℕ
  max_daily_loss : ℚ
  max_daily_trades : ℕ
  max_positions : ℕ
  long_positions : List Position
  short_positions : List Position
  daily_loss : ℚ
  daily_trades : ℕ
  is_paused : Bool
  current_atr : ℚ
  account_balance : ℚ
  total_profit : ℚ
  total_loss : ℚ
  trade_count : ℕ
  long_profit_count : ℕ
  long_loss_count : ℕ
  short_profit_count : ℕ
  short_loss_count : ℕ
  trades : List TradeRecord
deriving DecidableEq, Repr

/-- `_calculate_position_amount`: quantity =
(account balance × position ratio × leverage) / current price. -/
def calculate_position_amount (s : Strategy) (current_price : ℚ) : ℚ :=
  let available_amount := s.account_balance * s.position_ratio
  let position_amount_usdt := available_amount * s.leverage
  position_amount_usdt / current_price

/-- `_calculate_long_stop_loss`. -/
def calculate_long_stop_loss (s : Strategy) (position : Position) : ℚ :=
  let entry_price := position.entry_price
  let entry_atr := position.entry_atr.getD s.current_atr
  match s.stop_loss_type with
  | ThresholdType.atr => entry_price - entry_atr * s.stop_loss_atr_multiplier
  | ThresholdType.percent => entry_price * (1 - s.stop_loss_ratio)

/-- `_calculate_long_take_profit`. -/
def calculate_long_take_profit (s : Strategy) (position : Position) : ℚ :=
  let entry_price := position.entry_price
  let entry_atr := position.entry_atr.getD s.current_atr
  match s.up_threshold_type with
  | ThresholdType.atr => entry_price + entry_atr * s.up_atr_multiplier
  | ThresholdType.percent => entry_price * (1 + s.up_threshold)

/-- `_calculate_short_stop_loss`. -/
def calculate_short_stop_loss (s : Strategy) (position : Position) : ℚ :=
  let entry_price := position.entry_price
  let entry_atr := position.entry_atr.getD s.current_atr
  match s.stop_loss_type with
  | ThresholdType.atr => entry_price + entry_atr * s.stop_loss_atr_multiplier
  | ThresholdType.percent => entry_price * (1 + s.stop_loss_ratio)

/-- `_calculate_short_take_profit`. -/
def calculate_short_take_profit (s : Strategy) (position : Position) : ℚ :=
  let entry_price := position.entry_price
  let entry_atr := position.entry_atr.getD s.current_atr
  match s.down_threshold_type with
  | ThresholdType.atr => entry_price - entry_atr * s.down_atr_multiplier
  | ThresholdType.percent => entry_price * (1 - s.down_threshold)

/-- `_check_risk_control_basic`: returns the boolean result and the
(possibly pause-flagged) new state. -/
def check_risk_control_basic (s : Strategy) : Bool × Strategy :=
  if s.is_paused then (false, s)
  else if s.max_daily_loss ≤ s.daily_loss then (false, { s with is_paused := true })
  else if (s.max_daily_trades : ℕ) ≤ s.daily_trades then (false, { s with is_paused := true })
  else (true, s)

/-- `_check_risk_control_full`: basic check, then the max-positions check. -/
def check_risk_control_full (s : Strategy) : Bool × Strategy :=
  let b := check_risk_control_basic s
  if b.1 = false then (false, b.2)
  else
    let total_positions := b.2.long_positions.length + b.2.short_positions.length
    if s.max_positions * 2 ≤ total_positions then (false, b.2)
    else (true, b.2)

/-- `update_daily_stats`: add a (positive) loss amount to the daily loss. -/
def update_daily_stats (s : Strategy) (loss : ℚ) : Strategy :=
  if 0 < loss then { s with daily_loss := s.daily_loss + loss } else s

/-- `reset_daily_stats`. -/
def reset_daily_stats (s : Strategy) : Strategy :=
  { s with daily_loss := 0, daily_trades := 0, is_paused := false }

/-- `_open_long_position`: `ok` is whether the market-buy call succeeds
(`false` = it raises and the `except` handler swallows the error), `fill` the
order's reported average price (`order.get('average', order.get('price',
price))`, defaulting to the passed price). -/
def open_long_position (s : Strategy) (price : ℚ) (fill : Option ℚ) (ok : Bool) : Strategy :=
  if ok then
    let position_amount := calculate_position_amount s price
    let long_position : Position :=
      { entry_price := fill.getD price
        amount := position_amount
        is_open := true
        entry_atr := some s.current_atr }
    { s with long_positions := s.long_positions ++ [long_position] }
  else s

/-- `_open_short_position`, mirror of `_open_long_position`. -/
def open_short_position (s : Strategy) (price : ℚ) (fill : Option ℚ) (ok : Bool) : Strategy :=
  if ok then
    let position_amount := calculate_position_amount s price
    let short_position : Position :=
      { entry_price := fill.getD price
        amount := position_amount
        is_open := true
        entry_atr := some s.current_atr }
    { s with short_positions := s.short_positions ++ [short_position] }
  else s

/-- The taker fee rate `Decimal('0.0004')` used by the close functions. -/
def fee_rate : ℚ := 4 / 10000

/-- `_close_long_position`.  The source first sets `position['is_open'] =
False`, then issues the reduce-only market sell; `ok = false` models that call
raising, in which case only the flag assignment has happened and the `except`
handler returns.  On success it books gross profit `(price - entry) × amount`,
deducts the round-trip fee `amount × price × fee_rate × 2`, classifies the
trade by the sign of the gross profit, records the trade and removes the
position from the ledger. -/
def close_long_position (s : Strategy) (position : Position) (current_price : ℚ)
    (ok : Bool) (reason : CloseReason) : Strategy :=
  let flagged : Position := { position with is_open := false }
  let ledger := s.long_positions.map (fun q => if q = position then flagged else q)
  if ok then
    let entry_price := position.entry_price
    let profit_amount := (current_price - entry_price) * position.amount
    let position_value_usdt := position.amount * current_price
    let total_fee_usdt := position_value_usdt * fee_rate * 2
    let profit_amount_net := profit_amount - total_fee_usdt
    let s1 := { s with trade_count := s.trade_count + 1, daily_trades := s.daily_trades + 1 }
    let s2 :=
      if 0 ≤ profit_amount then
        { s1 with total_profit := s1.total_profit + profit_amount_net
                  long_profit_count := s1.long_profit_count + 1 }
      else
        update_daily_stats
          { s1 with total_loss := s1.total_loss + |profit_amount_net|
                    long_loss_count := s1.long_loss_count + 1 }
          |profit_amount_net|
    let record : TradeRecord :=
      { side := Side.long, entry_price := entry_price, exit_price := current_price
        amount := position.amount, profit := profit_amount_net, reason := reason }
    { s2 with trades := s2.trades ++ [record], long_positions := ledger.erase flagged }
  else
    { s with long_positions := ledger }

/-- `_close_short_position`, mirror of `_close_long_position`; note the gross
profit is `(entry - price) × amount` and the fee base is the entry value
`amount × entry_price`. -/
def close_short_position (s : Strategy) (position : Position) (current_price : ℚ)
    (ok : Bool) (reason : CloseReason) : Strategy :=
  let flagged : Position := { position with is_open := false }
  let ledger := s.short_positions.map (fun q => if q = position then flagged else q)
  if ok then
    let entry_price := position.entry_price
    let profit_amount := (entry_price - current_price) * position.amount
    let position_value_usdt := position.amount * entry_price
    let total_fee_usdt := position_value_usdt * fee_rate * 2
    let profit_amount_net := profit_amount - total_fee_usdt
    let s1 := { s with trade_count := s.trade_count + 1, daily_trades := s.daily_trades + 1 }
    let s2 :=
      if 0 ≤ profit_amount then
        { s1 with total_profit := s1.total_profit + profit_amount_net
                  short_profit_count := s1.short_profit_count + 1 }
      else
        update_daily_stats
          { s1 with total_loss := s1.total_loss + |profit_amount_net|
                    short_loss_count := s1.short_loss_count + 1 }
          |profit_amount_net|
    let record : TradeRecord :=
      { side := Side.short, entry_price := entry_price, exit_price := current_price
        amount := position.amount, profit := profit_amount_net, reason := reason }
    { s2 with trades := s2.trades ++ [record], short_positions := ledger.erase flagged }
  else
    { s with short_positions := ledger }

/-- The decision encoded by the conditionals of `check_long_triggers` for one
position: skip if not open; take-profit when `tp_price ≤ current_price`
(checked first, the branch ends in `continue`); otherwise stop-loss when
`current_price ≤ sl_price`. -/
def long_trigger_decision (s : Strategy) (position : Position) (current_price : ℚ) :
    Option CloseReason :=
  if position.is_open = false then none
  else if calculate_long_take_profit s position ≤ current_price then some CloseReason.takeProfit
  else if current_price ≤ calculate_long_stop_loss s position then some CloseReason.stopLoss
  else none

/-- The decision encoded by the conditionals of `check_short_triggers` for one
position: take-profit when `current_price ≤ tp_price` (checked first);
otherwise stop-loss when `sl_price ≤ current_price`. -/
def short_trigger_decision (s : Strategy) (position : Position) (current_price : ℚ) :
    Option CloseReason :=
  if position.is_open = false then none
  else if current_price ≤ calculate_short_take_profit s position then some CloseReason.takeProfit
  else if calculate_short_stop_loss s position ≤ current_price then some CloseReason.stopLoss
  else none

/-- Behaviour of the exchange during one trigger step: whether the close and
reopen market orders succeed, and the reopen order's reported average price. -/
structure ExchangeEnv where
  close_ok : Bool
  open_ok : Bool
  fill : Option ℚ
deriving DecidableEq, Repr

/-- One iteration of the `for position in list(self.long_positions)` loop of
`check_long_triggers`: on a triggered reason, close the position, then reopen
at the current price iff `_check_risk_control_full()` returns true. -/
def check_long_trigger_step (env : ExchangeEnv) (s : Strategy) (position : Position)
    (current_price : ℚ) : Strategy :=
  match long_trigger_decision s position current_price with
  | none => s
  | some reason =>
    let s1 := close_long_position s position current_price env.close_ok reason
    let c := check_risk_control_full s1
    if c.1 then open_long_position c.2 current_price env.fill env.open_ok else c.2

/-- One iteration of the loop of `check_short_triggers`. -/
def check_short_trigger_step (env : ExchangeEnv) (s : Strategy) (position : Position)
    (current_price : ℚ) : Strategy :=
  match short_trigger_decision s position current_price with
  | none => s
  | some reason =>
    let s1 := close_short_position s position current_price env.close_ok reason
    let c := check_risk_control_full s1
    if c.1 then open_short_position c.2 current_price env.fill env.open_ok else c.2

/-- `check_long_triggers`: the loop iterates over a snapshot
(`list(self.long_positions)`) of the ledger taken before any mutation. -/
def check_long_triggers (env : ExchangeEnv) (s : Strategy) (current_price : ℚ) : Strategy :=
  s.long_positions.foldl (fun st p => check_long_trigger_step env st p current_price) s

/-- `check_short_triggers`. -/
def check_short_triggers (env : ExchangeEnv) (s : Strategy) (current_price : ℚ) : Strategy :=
  s.short_positions.foldl (fun st p => check_short_trigger_step env st p current_price) s

/-- One OHLCV candle (only the fields `_update_atr` reads). -/
structure Candle where
  high : ℚ
  low : ℚ
  close : ℚ
deriving DecidableEq, Repr

/-- `TR = max(H - L, |H - PC|, |L - PC|)`. -/
def true_range (prev_close : ℚ) (c : Candle) : ℚ :=
  max (c.high - c.low) (max |c.high - prev_close| |c.low - prev_close|)

/-- The true ranges of a candle list given the previous close. -/
def tr_list_from (prev_close : ℚ) : List Candle → List ℚ
  | [] => []
  | c :: rest => true_range prev_close c :: tr_list_from c.close rest

/-- The `tr_list` built by `_update_atr`: the first candle only seeds
`prev_close`, every later candle contributes one true range. -/
def tr_list : List Candle → List ℚ
  | [] => []
  | c :: rest => tr_list_from c.close rest

/-- `_update_atr` applied to the fetched candle window: the new value of
`self.current_atr` — the arithmetic mean of all computed true ranges if there
is at least one, else the default `Decimal('0')`. -/
def update_atr (ohlcv : List Candle) : ℚ :=
  let trs := tr_list ohlcv
  if trs.length ≠ 0 then trs.sum / (trs.length : ℚ) else 0

/-- The sleeps `run_loop` performs, one per loop iteration: the body is
`try: ...cycle... except Exception: log` followed unconditionally by
`await asyncio.sleep(check_interval)` — the same fixed interval whether the
cycle raised (`true`) or not. -/
def run_loop_sleeps (check_interval : ℕ) (cycle_raised : List Bool) : List ℕ :=
  cycle_raised.map (fun _ => check_interval)

/-- Modelled from the spec: the capped exponential backoff delay
`min(baseDelay × 2^(failures-1), maxDelay)` the spec claims `run_loop` sleeps
after consecutive failures — stated only to compare against the source's
`run_loop_sleeps`. -/
def spec_backoff_delay (base_delay max_delay : ℕ) (failures : ℕ) : ℕ :=
  min (base_delay * 2 ^ (failures - 1)) max_delay

/-- Grid level side. -/
inductive GridSide where
  | buy
  | sell
deriving DecidableEq, Repr

/-- A grid ladder level. -/
structure GridLevel where
  side : GridSide
  price : ℚ
deriving DecidableEq, Repr

/-- Modelled from the spec: `_calculate_grid_levels` is called by the
repository's tests (`test_strategy_logic.py`, `comprehensive_test.py`) but is
absent from the strategy source under `src/`.  Per the spec it builds a
symmetric ladder of `gridCount` buy levels below and `gridCount` sell levels
above the base price, at `basePrice ± basePrice × gridRatio × i` for
`i = 1..gridCount`, returned sorted ascending by price (the tests index the
lowest price at `levels[0]` and the highest at `levels[-1]`). -/
def calculate_grid_levels (base_price : ℚ) (grid_count : ℕ) (grid_ratio : ℚ) :
    List GridLevel :=
  (List.range grid_count).map
    (fun k => { side := GridSide.buy
                price := base_price - base_price * grid_ratio * ((grid_count - k : ℕ) : ℚ) })
  ++ (List.range grid_count).map
    (fun k => { side := GridSide.sell
                price := base_price + base_price * grid_ratio * ((k + 1 : ℕ) : ℚ) })

/-- The strategy state right after `__init__` with the default configuration
(`config.get` fallbacks): used to build concrete witness states. -/
def default_strategy : Strategy :=
  { investment := 1000
    position_ratio := 1/10
    leverage := 5
    up_threshold_type := ThresholdType.percent
    up_threshold := 1/50
    up_atr_multiplier := 9/10
    down_threshold_type := ThresholdType.percent
    down_threshold := 1/50
    down_atr_multiplier := 9/10
    stop_loss_type := ThresholdType.percent
    stop_loss_ratio := 1/20
    stop_loss_atr_multiplier := 3/2
    atr_period := 14
    max_daily_loss := 100
    max_daily_trades := 50
    max_positions := 5
    long_positions := []
    short_positions := []
    daily_loss := 0
    daily_trades := 0
    is_paused := false
    current_atr := 0
    account_balance := 0
    total_profit := 0
    total_loss := 0
    trade_count := 0
    long_profit_count := 0
    long_loss_count := 0
    short_profit_count := 0
    short_loss_count := 0
    trades := [] }

/-- C2: in `atr` mode the take-profit resolves to
`entryPrice + atrValue × multiplier` for a long and
`entryPrice - atrValue × multiplier` for a short (in `percent` mode to
`entryPrice × (1 + ratio)` / `entryPrice × (1 - ratio)`), where `atrValue` is
the ATR snapshot recorded on the position at entry time; consequently an open
position's take-profit and stop-loss prices do not change when the strategy's
`current_atr` is later updated. -/
theorem C2_threshold_resolution (s : Strategy) (p : Position) (a : ℚ)
    (h : p.entry_atr = some a) :
    (s.up_threshold_type = ThresholdType.atr →
      calculate_long_take_profit s p = p.entry_price + a * s.up_atr_multiplier) ∧
    (s.down_threshold_type = ThresholdType.atr →
      calculate_short_take_profit s p = p.entry_price - a * s.down_atr_multiplier) ∧
    (s.up_threshold_type = ThresholdType.percent →
      calculate_long_take_profit s p = p.entry_price * (1 + s.up_threshold)) ∧
    (s.down_threshold_type = ThresholdType.percent →
      calculate_short_take_profit s p = p.entry_price * (1 - s.down_threshold)) ∧
    (∀ atr2 : ℚ,
      calculate_long_take_profit { s with current_atr := atr2 } p =
        calculate_long_take_profit s p ∧
      calculate_short_take_profit { s with current_atr := atr2 } p =
        calculate_short_take_profit s p ∧
      calculate_long_stop_loss { s with current_atr := atr2 } p =
        calculate_long_stop_loss s p ∧
      calculate_short_stop_loss { s with current_atr := atr2 } p =
        calculate_short_stop_loss s p) := by
  refine ⟨fun ht => ?_, fun ht => ?_, fun ht => ?_, fun ht => ?_, fun atr2 => ⟨?_, ?_, ?_, ?_⟩⟩ <;>
    simp [calculate_long_take_profit, calculate_short_take_profit,
      calculate_long_stop_loss, calculate_short_stop_loss, h, *]

/-- Witness for C2 at a concrete position with a recorded entry ATR of `2`:
the long take-profit in `atr` mode is `100 + 2 × 0.9` even though the
strategy's current ATR has since moved to `7`. -/
theorem C2_threshold_resolution_witness :
    calculate_long_take_profit
      { default_strategy with up_threshold_type := ThresholdType.atr, current_atr := 7 }
      { entry_price := 100, amount := 1, is_open := true, entry_atr := some 2 } =
      100 + 2 * (9/10) :=
  (C2_threshold_resolution _ _ 2 rfl).1 rfl

/-- C3: the basic risk check returns `true` iff the strategy is not paused,
`dailyLoss < maxDailyLoss` and `dailyTradeCount < maxDailyTrades`; a check
performed once either limit is reached returns `false` and leaves
`isPaused = true`; once paused, every basic check returns `false` and keeps
the pause flag, until `reset_daily_stats` zeroes both daily counters and
clears the flag. -/
theorem C3_risk_basic (s : Strategy) :
    ((check_risk_control_basic s).1 = true ↔
      s.is_paused = false ∧ s.daily_loss < s.max_daily_loss ∧
        s.daily_trades < s.max_daily_trades) ∧
    ((s.max_daily_loss ≤ s.daily_loss ∨ s.max_daily_trades ≤ s.daily_trades) →
      (check_risk_control_basic s).1 = false ∧
        (check_risk_control_basic s).2.is_paused = true) ∧
    (s.is_paused = true →
      (check_risk_control_basic s).1 = false ∧
        (check_risk_control_basic s).2.is_paused = true) ∧
    (reset_daily_stats s).daily_loss = 0 ∧
    (reset_daily_stats s).daily_trades = 0 ∧
    (reset_daily_stats s).is_paused = false := by
  unfold check_risk_control_basic reset_daily_stats
  split_ifs with h1 h2 h3 <;> simp_all

/-- Witness for C3: with the daily loss exactly at the limit the basic check
returns `false` and pauses; afterwards it keeps returning `false`, and
`reset_daily_stats` clears the pause. -/
theorem C3_risk_basic_witness :
    (check_risk_control_basic { default_strategy with daily_loss := 100 }).1 = false ∧
    (check_risk_control_basic { default_strategy with daily_loss := 100 }).2.is_paused = true ∧
    (check_risk_control_basic
      (check_risk_control_basic { default_strategy with daily_loss := 100 }).2).1 = false ∧
    (reset_daily_stats
      (check_risk_control_basic { default_strategy with daily_loss := 100 }).2).is_paused = false :=
  ⟨((C3_risk_basic _).2.1 (Or.inl (by decide))).1,
   ((C3_risk_basic _).2.1 (Or.inl (by decide))).2,
   ((C3_risk_basic _).2.2.1 ((C3_risk_basic _).2.1 (Or.inl (by decide))).2).1,
   (C3_risk_basic _).2.2.2.2.2⟩

/-- C7: recording a losing close adds the absolute (net) loss amount to the
daily loss; a close classified as profitable leaves the daily loss unchanged;
the daily loss never decreases across closes and is only cleared by
`reset_daily_stats`. -/
theorem C7_daily_loss_monotone :
    (∀ (s : Strategy) (l : ℚ), 0 < l →
      (update_daily_stats s l).daily_loss = s.daily_loss + l) ∧
    (∀ (s : Strategy) (l : ℚ), s.daily_loss ≤ (update_daily_stats s l).daily_loss) ∧
    (∀ (s : Strategy) (p : Position) (price : ℚ) (ok : Bool) (r : CloseReason),
      s.daily_loss ≤ (close_long_position s p price ok r).daily_loss) ∧
    (∀ (s : Strategy) (p : Position) (price : ℚ) (ok : Bool) (r : CloseReason),
      s.daily_loss ≤ (close_short_position s p price ok r).daily_loss) ∧
    (∀ (s : Strategy) (p : Position) (price : ℚ) (r : CloseReason),
      0 ≤ (price - p.entry_price) * p.amount →
      (close_long_position s p price true r).daily_loss = s.daily_loss) ∧
    (∀ (s : Strategy) (p : Position) (price : ℚ) (r : CloseReason),
      (price - p.entry_price) * p.amount < 0 →
      (close_long_position s p price true r).daily_loss =
        s.daily_loss +
          |(price - p.entry_price) * p.amount - p.amount * price * fee_rate * 2|) ∧
    (∀ (s : Strategy) (p : Position) (price : ℚ) (r : CloseReason),
      0 ≤ (p.entry_price - price) * p.amount →
      (close_short_position s p price true r).daily_loss = s.daily_loss) ∧
    (∀ (s : Strategy) (cs : List (Position × ℚ)),
      s.daily_loss ≤
        (cs.foldl (fun st pc => close_long_position st pc.1 pc.2 true CloseReason.stopLoss) s).daily_loss) ∧
    (∀ s : Strategy, (reset_daily_stats s).daily_loss = 0) := by
  have hadd : ∀ (s : Strategy) (l : ℚ), 0 < l →
      (update_daily_stats s l).daily_loss = s.daily_loss + l := by
    intro s l hl
    simp [update_daily_stats, hl]
  have hmono : ∀ (s : Strategy) (l : ℚ), s.daily_loss ≤ (update_daily_stats s l).daily_loss := by
    intro s l
    unfold update_daily_stats
    split_ifs with h
    · simp
      linarith
    · simp
  have hclosel : ∀ (s : Strategy) (p : Position) (price : ℚ) (ok : Bool) (r : CloseReason),
      s.daily_loss ≤ (close_long_position s p price ok r).daily_loss := by
    intro s p price ok r
    cases ok with
    | false => simp [close_long_position]
    | true =>
      by_cases hg : 0 ≤ (price - p.entry_price) * p.amount
      · simp [close_long_position, hg]
      · simp only [close_long_position, Bool.true_eq_false, if_neg hg, if_true]
        simpa using hmono _ _
  have hcloses : ∀ (s : Strategy) (p : Position) (price : ℚ) (ok : Bool) (r : CloseReason),
      s.daily_loss ≤ (close_short_position s p price ok r).daily_loss := by
    intro s p price ok r
    cases ok with
    | false => simp [close_short_position]
    | true =>
      by_cases hg : 0 ≤ (p.entry_price - price) * p.amount
      · simp [close_short_position, hg]
      · simp only [close_short_position, Bool.true_eq_false, if_neg hg, if_true]
        simpa using hmono _ _
  refine ⟨hadd, hmono, hclosel, hcloses, ?_, ?_, ?_, ?_, ?_⟩
  · intro s p price r hg
    simp [close_long_position, hg]
  · intro s p price r hg
    have hng : ¬ 0 ≤ (price - p.entry_price) * p.amount := not_le.mpr hg
    by_cases h0 : 0 < |(price - p.entry_price) * p.amount - p.amount * price * fee_rate * 2|
    · simp [close_long_position, hng, update_daily_stats, h0]
    · have habs := abs_nonneg ((price - p.entry_price) * p.amount - p.amount * price * fee_rate * 2)
      have hz : |(price - p.entry_price) * p.amount - p.amount * price * fee_rate * 2| = 0 :=
        le_antisymm (not_lt.mp h0) habs
      simp [close_long_position, hng, update_daily_stats, h0, hz]
  · intro s p price r hg
    simp [close_short_position, hg]
  · intro s cs
    induction cs generalizing s with
    | nil => simp
    | cons c rest ih =>
      calc s.daily_loss
          ≤ (close_long_position s c.1 c.2 true CloseReason.stopLoss).daily_loss :=
            hclosel s c.1 c.2 true CloseReason.stopLoss
        _ ≤ _ := by simpa using ih (close_long_position s c.1 c.2 true CloseReason.stopLoss)
  · intro s
    simp [reset_daily_stats]

/-- Witness for C7: a long close at a net loss of `5.08` (gross loss `5`,
fees `0.08`) raises the daily loss from `0` to `5.08`. -/
theorem C7_daily_loss_monotone_witness :
    (close_long_position default_strategy
        { entry_price := 100, amount := 1, is_open := true, entry_atr := some 2 }
        95 true CloseReason.stopLoss).daily_loss =
      default_strategy.daily_loss + |((95 : ℚ) - 100) * 1 - 1 * 95 * fee_rate * 2| :=
  C7_daily_loss_monotone.2.2.2.2.2.1 default_strategy
    { entry_price := 100, amount := 1, is_open := true, entry_atr := some 2 }
    95 CloseReason.stopLoss (by norm_num)

/-- C9: a closed trade is classified by its gross profit while the amounts
accumulated are net of fees: a close with gross profit `≥ 0` but negative net
profit increments the profit counter, adds the negative net amount to
`total_profit`, and leaves the daily loss and the loss counter untouched
(long and short sides alike). -/
theorem C9_gross_classification (s : Strategy) (p : Position) (price : ℚ)
    (r : CloseReason) :
    (0 ≤ (price - p.entry_price) * p.amount →
      (price - p.entry_price) * p.amount - p.amount * price * fee_rate * 2 < 0 →
      (close_long_position s p price true r).long_profit_count = s.long_profit_count + 1 ∧
      (close_long_position s p price true r).total_profit =
        s.total_profit +
          ((price - p.entry_price) * p.amount - p.amount * price * fee_rate * 2) ∧
      (close_long_position s p price true r).daily_loss = s.daily_loss ∧
      (close_long_position s p price true r).long_loss_count = s.long_loss_count) ∧
    (0 ≤ (p.entry_price - price) * p.amount →
      (p.entry_price - price) * p.amount - p.amount * p.entry_price * fee_rate * 2 < 0 →
      (close_short_position s p price true r).short_profit_count = s.short_profit_count + 1 ∧
      (close_short_position s p price true r).total_profit =
        s.total_profit +
          ((p.entry_price - price) * p.amount - p.amount * p.entry_price * fee_rate * 2) ∧
      (close_short_position s p price true r).daily_loss = s.daily_loss ∧
      (close_short_position s p price true r).short_loss_count = s.short_loss_count) := by
  constructor
  · intro hg _hn
    simp [close_long_position, hg]
  · intro hg _hn
    simp [close_short_position, hg]

/-- Witness for C9: entry `100`, exit `100`, quantity `1` — gross profit `0`,
net profit `-0.08`: the long profit counter increments, `total_profit`
decreases by `0.08`, the daily loss stays `0`. -/
theorem C9_gross_classification_witness :
    (close_long_position default_strategy
        { entry_price := 100, amount := 1, is_open := true, entry_atr := some 2 }
        100 true CloseReason.takeProfit).long_profit_count =
      default_strategy.long_profit_count + 1 ∧
    (close_long_position default_strategy
        { entry_price := 100, amount := 1, is_open := true, entry_atr := some 2 }
        100 true CloseReason.takeProfit).total_profit =
      default_strategy.total_profit + (((100 : ℚ) - 100) * 1 - 1 * 100 * fee_rate * 2) ∧
    (close_long_position default_strategy
        { entry_price := 100, amount := 1, is_open := true, entry_atr := some 2 }
        100 true CloseReason.takeProfit).daily_loss = default_strategy.daily_loss ∧
    (close_long_position default_strategy
        { entry_price := 100, amount := 1, is_open := true, entry_atr := some 2 }
        100 true CloseReason.takeProfit).long_loss_count = default_strategy.long_loss_count :=
  (C9_gross_classification default_strategy
      { entry_price := 100, amount := 1, is_open := true, entry_atr := some 2 }
      100 CloseReason.takeProfit).1
    (by norm_num) (by norm_num [fee_rate])

/-- C10: for every positive current price, the quantity of a newly opened
position (long or short) equals
`account_balance × position_ratio × leverage / current_price`; the configured
investment amount does not enter the sizing. -/
theorem C10_position_sizing (s : Strategy) (price : ℚ) (inv : ℚ) (fill : Option ℚ)
    (_hp : 0 < price) :
    calculate_position_amount s price =
      s.account_balance * s.position_ratio * s.leverage / price ∧
    calculate_position_amount { s with investment := inv } price =
      calculate_position_amount s price ∧
    (open_long_position s price fill true).long_positions =
      s.long_positions ++
        [{ entry_price := fill.getD price
           amount := s.account_balance * s.position_ratio * s.leverage / price
           is_open := true
           entry_atr := some s.current_atr }] ∧
    (open_short_position s price fill true).short_positions =
      s.short_positions ++
        [{ entry_price := fill.getD price
           amount := s.account_balance * s.position_ratio * s.leverage / price
           is_open := true
           entry_atr := some s.current_atr }] := by
  refine ⟨rfl, rfl, ?_, ?_⟩ <;>
    simp [open_long_position, open_short_position, calculate_position_amount]

/-- Witness for C10: balance `2000`, ratio `0.1`, leverage `5`, price `50`
give quantity `20` whatever the configured investment is. -/
theorem C10_position_sizing_witness :
    calculate_position_amount
      { default_strategy with account_balance := 2000, investment := 777 } 50 =
      ({ default_strategy with account_balance := 2000, investment := 777 } :
        Strategy).account_balance * (1/10) * 5 / 50 :=
  (C10_position_sizing
    { default_strategy with account_balance := 2000, investment := 777 }
    50 777 none (by norm_num)).1

/-- Every candle after the seeding one contributes exactly one true range. -/
theorem tr_list_from_length (pc : ℚ) (l : List Candle) :
    (tr_list_from pc l).length = l.length := by
  induction l generalizing pc with
  | nil => rfl
  | cons c rest ih => simp [tr_list_from, ih]

/-- `update_atr` always equals the mean of the computed true-range list (the
empty case agreeing because `0 / 0 = 0` in `ℚ`). -/
theorem update_atr_eq (l : List Candle) :
    update_atr l = (tr_list l).sum / ((tr_list l).length : ℚ) := by
  unfold update_atr
  by_cases h : (tr_list l).length = 0
  · have hnil : tr_list l = [] := List.length_eq_zero.mp h
    simp [hnil]
  · simp [h]

/-- C4 (amended): given exactly `N + 1` candles the calculator returns the
arithmetic mean of the `N` true ranges `TR = max(high - low, |high -
prevClose|, |low - prevClose|)`; but with fewer than `N + 1` candles it does
not report a "no indicator" condition: with at least 2 candles it still
returns the numeric mean of however many true ranges are available, and only
with 0 or 1 candles does it fall back to the default value `0`. -/
theorem C4_atr_amended (ohlcv : List Candle) (n : ℕ) :
    (ohlcv.length = n + 1 →
      (tr_list ohlcv).length = n ∧
      update_atr ohlcv = (tr_list ohlcv).sum / (n : ℚ)) ∧
    (2 ≤ ohlcv.length →
      update_atr ohlcv = (tr_list ohlcv).sum / ((ohlcv.length - 1 : ℕ) : ℚ)) ∧
    (ohlcv.length ≤ 1 → update_atr ohlcv = 0) := by
  have hlen : ∀ (c : Candle) (rest : List Candle),
      (tr_list (c :: rest)).length = rest.length := by
    intro c rest
    simp [tr_list, tr_list_from_length]
  refine ⟨?_, ?_, ?_⟩
  · intro h
    match ohlcv, h with
    | c :: rest, h =>
      have hr : rest.length = n := by simpa using h
      have hl : (tr_list (c :: rest)).length = n := by rw [hlen, hr]
      exact ⟨hl, by rw [update_atr_eq, hl]⟩
  · intro h
    match ohlcv, h with
    | c :: rest, _h =>
      have hl : (tr_list (c :: rest)).length = (c :: rest).length - 1 := by
        simp [hlen]
      rw [update_atr_eq, hl]
  · intro h
    match ohlcv, h with
    | [], _ => rfl
    | [c], _ => rfl

/-- Witness for C4 (amended): a window of exactly `3 + 1` candles yields the
mean of its 3 true ranges. -/
theorem C4_atr_amended_witness :
    update_atr [(⟨10, 9, 10⟩ : Candle), ⟨12, 10, 11⟩, ⟨12, 11, 12⟩, ⟨13, 12, 13⟩] =
      (tr_list [(⟨10, 9, 10⟩ : Candle), ⟨12, 10, 11⟩, ⟨12, 11, 12⟩, ⟨13, 12, 13⟩]).sum /
        (3 : ℚ) :=
  ((C4_atr_amended [⟨10, 9, 10⟩, ⟨12, 10, 11⟩, ⟨12, 11, 12⟩, ⟨13, 12, 13⟩] 3).1 rfl).2

/-- C4 counterexample: with the default ATR period 14 and a window of only 3
candles — fewer than the `N + 1 = 15` the claim requires for a numeric result
— `_update_atr` still produces a numeric ATR value, namely the mean `3/2` of
the 2 available true ranges, instead of a "no indicator" result; the fallback
branch (`current_atr = 0`) only triggers with fewer than 2 candles. -/
theorem C4_counterexample :
    ([(⟨10, 9, 10⟩ : Candle), ⟨12, 10, 11⟩, ⟨12, 11, 12⟩].length <
      default_strategy.atr_period + 1) ∧
    update_atr [(⟨10, 9, 10⟩ : Candle), ⟨12, 10, 11⟩, ⟨12, 11, 12⟩] = 3/2 ∧
    (3/2 : ℚ) ≠ 0 := by
  refine ⟨by decide, ?_, by norm_num⟩
  norm_num [update_atr, tr_list, tr_list_from, true_range, max_def, abs_eq_max_neg]

/-- C5: the failure path of `_close_long_position` evaluated at a concrete
input.  The source sets `position['is_open'] = False` before issuing the
close order; when that exchange call raises, the position is indeed not
removed from the ledger, but it is left flagged closed, no statistics change,
and — because both `check_long_triggers` and `close_all_positions` skip
entries with `is_open == False` — it is never re-evaluated on any later
cycle: the exposed position is silently lost, contradicting the claim that
its state is left unchanged and re-evaluated next cycle. -/
theorem C5_close_failure_loses_position :
    let p : Position := { entry_price := 100, amount := 1, is_open := true, entry_atr := some 2 }
    let s : Strategy := { default_strategy with long_positions := [p] }
    let s2 := close_long_position s p 95 false CloseReason.stopLoss
    s2.long_positions = [{ p with is_open := false }] ∧
    s2.trade_count = s.trade_count ∧
    s2.daily_loss = s.daily_loss ∧
    long_trigger_decision s2 { p with is_open := false } 95 = none ∧
    check_long_triggers { close_ok := true, open_ok := true, fill := none } s2 95 = s2 := by
  refine ⟨?_, ?_, ?_, ?_, ?_⟩ <;>
    norm_num [close_long_position, long_trigger_decision, check_long_triggers,
      check_long_trigger_step, default_strategy]

/-- C6 counterexample: five consecutive failed cycles under `run_loop` (with
its default 5-second check interval) each sleep 5 seconds — not the claimed
capped exponential backoff sequence 10, 20, 40, 80, 160 seconds with base
10 s and cap 300 s. -/
theorem C6_counterexample :
    run_loop_sleeps 5 [true, true, true, true, true] = [5, 5, 5, 5, 5] ∧
    (List.range 5).map (fun k => spec_backoff_delay 10 300 (k + 1)) =
      [10, 20, 40, 80, 160] ∧
    run_loop_sleeps 5 [true, true, true, true, true] ≠
      (List.range 5).map (fun k => spec_backoff_delay 10 300 (k + 1)) := by
  refine ⟨rfl, rfl, by decide⟩

/-- C6 (amended): on an unhandled exception within a poll cycle `run_loop`
does not terminate — the exception is caught and logged — but there is no
consecutive-failure counter, no exponential backoff and no reconciliation
pass: the loop sleeps the same fixed check interval after every cycle,
whether it raised or not. -/
theorem C6_fixed_sleep_amended (check_interval : ℕ) (cycle_raised : List Bool) :
    run_loop_sleeps check_interval cycle_raised =
      List.replicate cycle_raised.length check_interval := by
  induction cycle_raised with
  | nil => rfl
  | cons b rest ih =>
    simp only [run_loop_sleeps, List.map_cons, List.length_cons, List.replicate] at ih ⊢
    exact congrArg _ ih

/-- If the basic risk check passes, it did not modify the state. -/
theorem check_basic_true_snd (s : Strategy) (h : (check_risk_control_basic s).1 = true) :
    (check_risk_control_basic s).2 = s := by
  unfold check_risk_control_basic at h ⊢
  split_ifs at h ⊢ <;> simp_all

/-- If the full risk check passes, it did not modify the state. -/
theorem check_full_true_snd (s : Strategy) (h : (check_risk_control_full s).1 = true) :
    (check_risk_control_full s).2 = s := by
  unfold check_risk_control_full at h ⊢
  by_cases hb : (check_risk_control_basic s).1 = false
  · simp [hb] at h
  · simp only [hb, if_false] at h ⊢
    by_cases hcnt : s.max_positions * 2 ≤
        (check_risk_control_basic s).2.long_positions.length +
          (check_risk_control_basic s).2.short_positions.length
    · simp [hcnt] at h
    · simp only [hcnt, if_false]
      have hb1 : (check_risk_control_basic s).1 = true := by
        rcases hb2 : (check_risk_control_basic s).1 with _ | _
        · exact absurd hb2 hb
        · rfl
      exact check_basic_true_snd s hb1

/-- The risk checks never touch the position ledgers. -/
theorem check_full_snd_positions (s : Strategy) :
    (check_risk_control_full s).2.long_positions = s.long_positions ∧
    (check_risk_control_full s).2.short_positions = s.short_positions := by
  simp only [check_risk_control_full, check_risk_control_basic]
  split_ifs <;> simp

/-- Closing a long position does not touch the sizing inputs or the ATR. -/
theorem close_long_position_preserves (s : Strategy) (p : Position) (price : ℚ)
    (ok : Bool) (r : CloseReason) :
    (close_long_position s p price ok r).account_balance = s.account_balance ∧
    (close_long_position s p price ok r).position_ratio = s.position_ratio ∧
    (close_long_position s p price ok r).leverage = s.leverage ∧
    (close_long_position s p price ok r).current_atr = s.current_atr := by
  cases ok with
  | false => simp [close_long_position]
  | true =>
    by_cases hg : 0 ≤ (price - p.entry_price) * p.amount <;>
      simp [close_long_position, update_daily_stats, hg] <;> split_ifs <;> simp

/-- Closing a short position does not touch the sizing inputs or the ATR. -/
theorem close_short_position_preserves (s : Strategy) (p : Position) (price : ℚ)
    (ok : Bool) (r : CloseReason) :
    (close_short_position s p price ok r).account_balance = s.account_balance ∧
    (close_short_position s p price ok r).position_ratio = s.position_ratio ∧
    (close_short_position s p price ok r).leverage = s.leverage ∧
    (close_short_position s p price ok r).current_atr = s.current_atr := by
  cases ok with
  | false => simp [close_short_position]
  | true =>
    by_cases hg : 0 ≤ (p.entry_price - price) * p.amount <;>
      simp [close_short_position, update_daily_stats, hg] <;> split_ifs <;> simp

/-- A successful close of the only long position in the ledger records one
trade (net of fees) and empties the long ledger. -/
theorem close_long_singleton (s : Strategy) (p : Position) (price : ℚ) (r : CloseReason)
    (hledger : s.long_positions = [p]) :
    (close_long_position s p price true r).trades =
      s.trades ++
        [{ side := Side.long
           entry_price := p.entry_price
           exit_price := price
           amount := p.amount
           profit := (price - p.entry_price) * p.amount - p.amount * price * fee_rate * 2
           reason := r }] ∧
    (close_long_position s p price true r).long_positions = [] := by
  by_cases hg : 0 ≤ (price - p.entry_price) * p.amount <;>
    simp [close_long_position, update_daily_stats, hledger, hg] <;> split_ifs <;> simp

/-- A successful close of the only short position in the ledger records one
trade (net of fees) and empties the short ledger. -/
theorem close_short_singleton (s : Strategy) (p : Position) (price : ℚ) (r : CloseReason)
    (hledger : s.short_positions = [p]) :
    (close_short_position s p price true r).trades =
      s.trades ++
        [{ side := Side.short
           entry_price := p.entry_price
           exit_price := price
           amount := p.amount
           profit := (p.entry_price - price) * p.amount - p.amount * p.entry_price * fee_rate * 2
           reason := r }] ∧
    (close_short_position s p price true r).short_positions = [] := by
  by_cases hg : 0 ≤ (p.entry_price - price) * p.amount <;>
    simp [close_short_position, update_daily_stats, hledger, hg] <;> split_ifs <;> simp

/-- C1 (amended): for an open long position the take-profit condition
`currentPrice ≥ takeProfit` closes it with reason take-profit; the stop-loss
condition `currentPrice ≤ stopLoss` closes it with reason stop-loss only when
the take-profit condition does not also hold, because the take-profit branch
is checked first and ends the iteration (mirrored comparisons for a short
position); after such a close (with the exchange calls succeeding) the trade
is recorded, the position leaves the ledger, and a fresh position on the same
side is opened at the current market price if and only if the full risk check
still permits. -/
theorem C1_trigger_amended (env : ExchangeEnv) (s : Strategy) (p : Position) (price : ℚ)
    (hc : env.close_ok = true) (ho : env.open_ok = true) (hf : env.fill = none)
    (hopen : p.is_open = true) :
    (long_trigger_decision s p price = some CloseReason.takeProfit ↔
      calculate_long_take_profit s p ≤ price) ∧
    (long_trigger_decision s p price = some CloseReason.stopLoss ↔
      ¬ calculate_long_take_profit s p ≤ price ∧ price ≤ calculate_long_stop_loss s p) ∧
    (short_trigger_decision s p price = some CloseReason.takeProfit ↔
      price ≤ calculate_short_take_profit s p) ∧
    (short_trigger_decision s p price = some CloseReason.stopLoss ↔
      ¬ price ≤ calculate_short_take_profit s p ∧ calculate_short_stop_loss s p ≤ price) ∧
    (∀ r, long_trigger_decision s p price = some r → s.long_positions = [p] →
      (close_long_position s p price true r).trades =
        s.trades ++
          [{ side := Side.long
             entry_price := p.entry_price
             exit_price := price
             amount := p.amount
             profit := (price - p.entry_price) * p.amount - p.amount * price * fee_rate * 2
             reason := r }] ∧
      (close_long_position s p price true r).long_positions = [] ∧
      ((check_risk_control_full (close_long_position s p price true r)).1 = true →
        (check_long_trigger_step env s p price).long_positions =
          [{ entry_price := price
             amount := calculate_position_amount s price
             is_open := true
             entry_atr := some s.current_atr }]) ∧
      ((check_risk_control_full (close_long_position s p price true r)).1 = false →
        (check_long_trigger_step env s p price).long_positions = [])) ∧
    (∀ r, short_trigger_decision s p price = some r → s.short_positions = [p] →
      (close_short_position s p price true r).trades =
        s.trades ++
          [{ side := Side.short
             entry_price := p.entry_price
             exit_price := price
             amount := p.amount
             profit := (p.entry_price - price) * p.amount - p.amount * p.entry_price * fee_rate * 2
             reason := r }] ∧
      (close_short_position s p price true r).short_positions = [] ∧
      ((check_risk_control_full (close_short_position s p price true r)).1 = true →
        (check_short_trigger_step env s p price).short_positions =
          [{ entry_price := price
             amount := calculate_position_amount s price
             is_open := true
             entry_atr := some s.current_atr }]) ∧
      ((check_risk_control_full (close_short_position s p price true r)).1 = false →
        (check_short_trigger_step env s p price).short_positions = [])) := by
  obtain ⟨eco, eoo, efi⟩ := env
  simp only at hc ho hf
  subst hc
  subst ho
  subst hf
  refine ⟨?_, ?_, ?_, ?_, ?_, ?_⟩
  · unfold long_trigger_decision
    simp only [hopen]
    split_ifs with h1 h2 <;> simp_all
  · unfold long_trigger_decision
    simp only [hopen]
    split_ifs with h1 h2 <;> simp_all
  · unfold short_trigger_decision
    simp only [hopen]
    split_ifs with h1 h2 <;> simp_all
  · unfold short_trigger_decision
    simp only [hopen]
    split_ifs with h1 h2 <;> simp_all
  · intro r hr hledger
    obtain ⟨htr, hpos⟩ := close_long_singleton s p price r hledger
    have hpres := close_long_position_preserves s p price true r
    refine ⟨htr, hpos, ?_, ?_⟩
    · intro hfull
      have hsnd := check_full_true_snd _ hfull
      unfold check_long_trigger_step
      rw [hr]
      simp only [hfull, if_true, hsnd]
      simp [open_long_position, hpos, calculate_position_amount,
        hpres.1, hpres.2.1, hpres.2.2.1, hpres.2.2.2]
    · intro hfull
      have hps := check_full_snd_positions (close_long_position s p price true r)
      unfold check_long_trigger_step
      rw [hr]
      simp [hfull, hps.1, hpos]
  · intro r hr hledger
    obtain ⟨htr, hpos⟩ := close_short_singleton s p price r hledger
    have hpres := close_short_position_preserves s p price true r
    refine ⟨htr, hpos, ?_, ?_⟩
    · intro hfull
      have hsnd := check_full_true_snd _ hfull
      unfold check_short_trigger_step
      rw [hr]
      simp only [hfull, if_true, hsnd]
      simp [open_short_position, hpos, calculate_position_amount,
        hpres.1, hpres.2.1, hpres.2.2.1, hpres.2.2.2]
    · intro hfull
      have hps := check_full_snd_positions (close_short_position s p price true r)
      unfold check_short_trigger_step
      rw [hr]
      simp [hfull, hps.2, hpos]

/-- Witness for C1 (amended): the spec's own scenario — entry 100, entry ATR
2, up-multiplier 0.9 in atr mode gives take-profit 101.8, and price 101.8
triggers a take-profit close decision. -/
theorem C1_trigger_amended_witness :
    long_trigger_decision
      { default_strategy with
          up_threshold_type := ThresholdType.atr
          long_positions := [{ entry_price := 100, amount := 1, is_open := true, entry_atr := some 2 }] }
      { entry_price := 100, amount := 1, is_open := true, entry_atr := some 2 } (1018/10) =
      some CloseReason.takeProfit :=
  (C1_trigger_amended { close_ok := true, open_ok := true, fill := none } _ _ (1018/10)
      rfl rfl rfl rfl).1.mpr
    (by norm_num [calculate_long_take_profit, default_strategy])

/-- C1 counterexample: a long position whose recorded entry ATR is `0` (the
value `_update_atr` leaves behind after a failed candle fetch) under atr-mode
thresholds has take-profit = stop-loss = entry price; at `currentPrice = 100`
the claim's stop-loss condition `currentPrice ≤ stopLoss` holds, yet the
position is closed with reason take-profit, not stop-loss — the take-profit
branch is evaluated first and ends the iteration with `continue`. -/
theorem C1_counterexample :
    let p : Position := { entry_price := 100, amount := 1, is_open := true, entry_atr := some 0 }
    let s : Strategy := { default_strategy with
      up_threshold_type := ThresholdType.atr
      stop_loss_type := ThresholdType.atr
      long_positions := [p] }
    (100 : ℚ) ≤ calculate_long_stop_loss s p ∧
    long_trigger_decision s p 100 = some CloseReason.takeProfit ∧
    (check_long_trigger_step { close_ok := true, open_ok := true, fill := none }
        s p 100).trades.map TradeRecord.reason = [CloseReason.takeProfit] := by
  refine ⟨?_, ?_, ?_⟩ <;>
    norm_num [calculate_long_stop_loss, calculate_long_take_profit, long_trigger_decision,
      check_long_trigger_step, close_long_position, check_risk_control_full,
      check_risk_control_basic, open_long_position, calculate_position_amount,
      update_daily_stats, default_strategy]

/-- C8 (spec-modelled): for every positive base price and grid ratio and
every `grid_count = N`, the grid-level calculation produces exactly `2N`
levels — `N` buy levels strictly below the base price and `N` sell levels
strictly above it, at prices `basePrice ± basePrice × gridRatio × i` for
`i = 1..N` — strictly sorted by price with no duplicate prices. -/
theorem C8_grid_levels (base_price : ℚ) (grid_count : ℕ) (grid_ratio : ℚ)
    (levels : List GridLevel)
    (hl : levels = calculate_grid_levels base_price grid_count grid_ratio)
    (hb : 0 < base_price) (hr : 0 < grid_ratio) :
    levels.length = 2 * grid_count ∧
    (levels.filter (fun l => l.side = GridSide.buy)).length = grid_count ∧
    (levels.filter (fun l => l.side = GridSide.sell)).length = grid_count ∧
    (∀ l ∈ levels, l.side = GridSide.buy → l.price < base_price) ∧
    (∀ l ∈ levels, l.side = GridSide.sell → base_price < l.price) ∧
    (∀ i : ℕ, 1 ≤ i → i ≤ grid_count →
      ({ side := GridSide.buy,
         price := base_price - base_price * grid_ratio * (i : ℚ) } : GridLevel) ∈ levels ∧
      ({ side := GridSide.sell,
         price := base_price + base_price * grid_ratio * (i : ℚ) } : GridLevel) ∈ levels) ∧
    (levels.map GridLevel.price).Pairwise (· < ·) ∧
    (levels.map GridLevel.price).Nodup := by
  subst hl
  have hbr : 0 < base_price * grid_ratio := mul_pos hb hr
  have key : ∀ m : ℕ, 1 ≤ m → 0 < base_price * grid_ratio * (m : ℚ) := by
    intro m hm
    have h1 : (1 : ℚ) ≤ (m : ℚ) := by exact_mod_cast hm
    have h2 := mul_le_mul_of_nonneg_left h1 hbr.le
    simpa using lt_of_lt_of_le hbr (by simpa using h2)
  constructor
  · simp [calculate_grid_levels]
    omega
  constructor
  · simp [calculate_grid_levels, List.filter_append, List.filter_map, Function.comp_def]
  constructor
  · simp [calculate_grid_levels, List.filter_append, List.filter_map, Function.comp_def]
  constructor
  · intro l hlmem hside
    unfold calculate_grid_levels at hlmem
    rcases List.mem_append.mp hlmem with hm | hm
    · obtain ⟨k, hk, rfl⟩ := List.mem_map.mp hm
      have hk1 : k < grid_count := List.mem_range.mp hk
      have := key (grid_count - k) (by omega)
      simp only []
      linarith
    · obtain ⟨k, hk, rfl⟩ := List.mem_map.mp hm
      simp at hside
  constructor
  · intro l hlmem hside
    unfold calculate_grid_levels at hlmem
    rcases List.mem_append.mp hlmem with hm | hm
    · obtain ⟨k, hk, rfl⟩ := List.mem_map.mp hm
      simp at hside
    · obtain ⟨k, hk, rfl⟩ := List.mem_map.mp hm
      have := key (k + 1) (by omega)
      simp only []
      linarith
  constructor
  · intro i hi1 hi2
    constructor
    · unfold calculate_grid_levels
      refine List.mem_append.mpr (Or.inl (List.mem_map.mpr ⟨grid_count - i, List.mem_range.mpr (by omega), ?_⟩))
      have h : grid_count - (grid_count - i) = i := by omega
      rw [h]
    · unfold calculate_grid_levels
      refine List.mem_append.mpr (Or.inr (List.mem_map.mpr ⟨i - 1, List.mem_range.mpr (by omega), ?_⟩))
      have h : i - 1 + 1 = i := by omega
      rw [h]
  have hpw : ((calculate_grid_levels base_price grid_count grid_ratio).map GridLevel.price).Pairwise (· < ·) := by
    unfold calculate_grid_levels
    rw [List.map_append, List.map_map, List.map_map, List.pairwise_append]
    refine ⟨?_, ?_, ?_⟩
    · rw [List.pairwise_iff_getElem]
      intro i j hi hj hij
      simp only [List.length_map, List.length_range] at hi hj
      simp only [List.getElem_map, List.getElem_range, Function.comp]
      have h1 : (grid_count - j : ℕ) < (grid_count - i : ℕ) := by omega
      have h2 : ((grid_count - j : ℕ) : ℚ) < ((grid_count - i : ℕ) : ℚ) := by exact_mod_cast h1
      have h3 := mul_lt_mul_of_pos_left h2 hbr
      linarith
    · rw [List.pairwise_iff_getElem]
      intro i j hi hj hij
      simp only [List.length_map, List.length_range] at hi hj
      simp only [List.getElem_map, List.getElem_range, Function.comp]
      have h2 : ((i + 1 : ℕ) : ℚ) < ((j + 1 : ℕ) : ℚ) := by exact_mod_cast by omega
      have h3 := mul_lt_mul_of_pos_left h2 hbr
      linarith
    · intro a ha b hb2
      simp only [List.mem_map, List.mem_range, Function.comp] at ha hb2
      obtain ⟨k, hk, rfl⟩ := ha
      obtain ⟨m, hm, rfl⟩ := hb2
      have h1 := key (grid_count - k) (by omega)
      have h2 := key (m + 1) (by omega)
      linarith
  refine ⟨hpw, ?_⟩
  exact hpw.imp (fun hab => ne_of_lt hab)


/-- Witness for C8: the spec scenario — base price 1000, gridCount 5,
gridRatio 0.05 — yields buy levels 750, 800, 850, 900, 950 and sell levels
1050, 1100, 1150, 1200, 1250, sorted ascending, 10 levels in total. -/
theorem C8_grid_levels_witness :
    calculate_grid_levels 1000 5 (1/20) =
      [{ side := GridSide.buy, price := 750 }, { side := GridSide.buy, price := 800 },
       { side := GridSide.buy, price := 850 }, { side := GridSide.buy, price := 900 },
       { side := GridSide.buy, price := 950 }, { side := GridSide.sell, price := 1050 },
       { side := GridSide.sell, price := 1100 }, { side := GridSide.sell, price := 1150 },
       { side := GridSide.sell, price := 1200 }, { side := GridSide.sell, price := 1250 }] ∧
    (calculate_grid_levels 1000 5 (1/20)).length = 2 * 5 :=
  ⟨by norm_num [calculate_grid_levels, List.range_succ],
   (C8_grid_levels 1000 5 (1/20) _ rfl (by norm_num) (by norm_num)).1⟩

end HedgeGrid
